import Mathlib

/-!
Verification of the attendance ledger engine of `src/attendance_tracker.py`.

The embedding models, per identity and calendar day, the worksheet row that
`AttendanceTracker.record_event` reads and writes (columns `First In`,
`Last Out`, `Total Hours`, `Status`, `Late`, `OT`), the per-name cooldown
index (`last_checkin`, `can_checkin`, `get_cooldown_remaining`), the
corruption-recovery block of `AttendanceTracker.__init__`, the row-level
status derivation of `get_user_status`, and the monthly summary
recomputation of `update_monthly_summary`.

Times of day are modelled as seconds since midnight (the code stores and
parses `%H:%M:%S` strings).  Duration cells hold strings of the form
`"Xh Ym"` or `"Ym"`; since that rendering is determined by (and determines)
a whole number of minutes, duration-valued cells are modelled semantically
as `Option Nat` minute counts, with `some 0` standing for the `'0m'` cell
and `none` for an empty cell.
-/

namespace AttendancePi

/-- Event kinds accepted by `record_event` (`src/attendance_tracker.py:439`). -/
inductive Event where
  | CHECK_IN
  | CHECK_OUT
  | ACCESS_GRANTED
  | ACCESS_DENIED
  deriving DecidableEq, Repr

/-- The `Status` column values written by `record_event`
(`'LATE'` / `'ON TIME'`, lines 486 and 502). -/
inductive Punct where
  | LATE
  | ON_TIME
  deriving DecidableEq, Repr

/-- One day's row of a user's month sheet: columns 3..8 of the worksheet
(`First In`, `Last Out`, `Total Hours`, `Status`, `Late`, `OT`).
Time cells are seconds-of-day; duration cells are minute counts
(`some 0` is the `'0m'` cell, `none` an empty cell). -/
structure DayRecord where
  firstIn : Option Nat
  lastOut : Option Nat
  total : Option Nat
  punct : Option Punct
  lateBy : Option Nat
  ot : Option Nat
  deriving DecidableEq, Repr

/-- The pre-materialized empty row that `_get_or_create_user_sheet` writes for
every day of the month (line 325: all data cells empty). -/
def emptyDayRecord : DayRecord :=
  { firstIn := none, lastOut := none, total := none,
    punct := none, lateBy := none, ot := none }

/-- Punctuality cutoff hard-coded in `record_event`
(line 484: `"08:30:00"`), in seconds of day. -/
def punctCutoff : Nat := 8 * 3600 + 30 * 60

/-- Overtime cutoff hard-coded in `record_event`
(line 535: `"17:00:00"`), in seconds of day. -/
def otCutoff : Nat := 17 * 3600

/-- `duration.seconds` of the Python timedelta `out_dt - in_dt` where both
datetimes share the same date (lines 526-528): the nonnegative
seconds part, i.e. `(o - i) mod 86400`. -/
def pyDiffSeconds (i o : Nat) : Nat :=
  if i ≤ o then o - i else 86400 - (i - o)

/-- The row transformation performed by `record_event`
(`src/attendance_tracker.py:478-553`) on today's row for the given event at
time-of-day `now`, together with its boolean result.  `CHECK_IN` with an
empty `First In` cell sets it and derives `Status`/`Late` against the
08:30:00 cutoff (lines 479-504); `CHECK_IN` with `First In` set and
`Last Out` set clears `Last Out`, `Total Hours` and `OT` (lines 505-510);
`CHECK_OUT` with `First In` empty is refused (lines 512-517); `CHECK_OUT`
otherwise overwrites `Last Out`, recomputes `Total Hours` from
`duration.seconds` in whole hours and minutes and derives `OT` against the
17:00:00 cutoff (lines 519-550); any other event kind matches no branch and
leaves the row untouched. -/
def recordEventRow (r : DayRecord) (e : Event) (now : Nat) : Bool × DayRecord :=
  match e with
  | .CHECK_IN =>
    match r.firstIn with
    | none =>
      if punctCutoff < now then
        (true, { r with
                  firstIn := some now, punct := some Punct.LATE,
                  lateBy := some ((now - punctCutoff) / 60) })
      else
        (true, { r with
                  firstIn := some now, punct := some Punct.ON_TIME,
                  lateBy := some 0 })
    | some _ =>
      if r.lastOut.isSome then
        (true, { r with lastOut := none, total := none, ot := none })
      else
        (true, r)
  | .CHECK_OUT =>
    match r.firstIn with
    | none => (false, r)
    | some tIn =>
      let d := pyDiffSeconds tIn now
      (true, { r with
                lastOut := some now,
                total := some (d / 3600 * 60 + d % 3600 / 60),
                ot := some (if otCutoff < now then (now - otCutoff) / 60 else 0) })
  | _ => (true, r)

/-- The per-identity tracker state touched by one `record_event` call: today's
row and this name's `last_checkin` entry (an abstract instant, `none` when
the name is absent from the cooldown index). -/
structure TrackerState where
  row : DayRecord
  lastCheckin : Option Nat
  deriving DecidableEq, Repr

/-- One full `record_event` call for a fixed name: the row transformation,
followed (only on the successful paths, since the refusal paths return
early) by the cooldown update `last_checkin[name] = now` for `CHECK_IN` and
`ACCESS_GRANTED` only (lines 560-562). -/
def recordEvent (s : TrackerState) (e : Event) (now : Nat) : Bool × TrackerState :=
  match recordEventRow s.row e now with
  | (false, r) => (false, { row := r, lastCheckin := s.lastCheckin })
  | (true, r) =>
    (true, { row := r,
             lastCheckin := if e = .CHECK_IN ∨ e = .ACCESS_GRANTED then some now
                            else s.lastCheckin })

/-- Apply a sequence of timed events to a day's row (repeated `record_event`
calls for the same identity and date). -/
def applyRow (r : DayRecord) (evs : List (Event × Nat)) : DayRecord :=
  evs.foldl (fun acc p => (recordEventRow acc p.1 p.2).2) r

/-- `config.CHECK_IN_COOLDOWN` (300 seconds) in microseconds; `datetime.now()`
instants carry microsecond resolution. -/
def cooldownUs : Int := 300 * 1000000

/-- `can_checkin` (`src/attendance_tracker.py:402-418`): true when the name is
absent from `last_checkin`, otherwise true iff the elapsed time since the
stored instant has reached the cooldown.  Instants are microseconds. -/
def canCheckin (last : Option Int) (now : Int) : Bool :=
  match last with
  | none => true
  | some l => cooldownUs ≤ now - l

/-- `get_cooldown_remaining` (`src/attendance_tracker.py:420-437`): 0 when the
name is absent; otherwise `max(0, int((cooldown - elapsed).total_seconds()))`,
which truncates the remaining time down to whole seconds. -/
def cooldownRemaining (last : Option Int) (now : Int) : Nat :=
  match last with
  | none => 0
  | some l =>
    if cooldownUs ≤ now - l then 0
    else (cooldownUs - (now - l)).toNat / 1000000

/-- The web display layer's punctuality comparison
(`src/web_app.py:204-206`): the LCD shows LATE iff the stored first
check-in time is strictly after the `"08:00:00"` cutoff it hard-codes. -/
def lcdShowsLate (firstInSec : Nat) : Bool :=
  8 * 3600 < firstInSec

/-- Status tag derived per row by `get_user_status`
(`src/attendance_tracker.py:754`). -/
inductive StatusTag where
  | IN
  | OUT
  deriving DecidableEq, Repr

/-- The per-row status derivation of `get_user_status` (line 754):
`'OUT' if time_out else 'IN'` — the `First In` cell is not consulted. -/
def userStatusRow (r : DayRecord) : StatusTag :=
  if r.lastOut.isSome then .OUT else .IN

/-- `get_user_status` (`src/attendance_tracker.py:729-762`) restricted to
today's rows: every sheet whose today-row exists yields a status entry for
its user, derived from that row alone. -/
def getUserStatus (sheets : List (String × DayRecord)) : List (String × StatusTag) :=
  sheets.map (fun p => (p.1, userStatusRow p.2))

/-- The summary block of a month sheet (`Total Working Days`,
`Total Hours Worked`, `Days Late`, `Total Late Time`, `Days with OT`,
`Total OT`), with durations in minutes. -/
structure SummaryBlock where
  workDays : Nat
  totalMinutes : Nat
  daysLate : Nat
  lateMinutes : Nat
  daysOT : Nat
  otMinutes : Nat
  deriving DecidableEq, Repr

/-- One iteration of the accumulation loop of `update_monthly_summary`
(`src/attendance_tracker.py:980-1002`): a day counts as worked when
`First In` is non-empty; `Total Hours` is summed whenever non-empty; a day
counts as late (resp. OT) when the `Late` (resp. `OT`) cell is non-empty
and differs from `'0m'`, i.e. holds a nonzero minute count. -/
def addRow (acc : SummaryBlock) (r : DayRecord) : SummaryBlock :=
  let a1 := if r.firstIn.isSome then { acc with workDays := acc.workDays + 1 } else acc
  let a2 := match r.total with
    | some m => { a1 with totalMinutes := a1.totalMinutes + m }
    | none => a1
  let a3 := match r.lateBy with
    | some m =>
      if m ≠ 0 then
        { a2 with daysLate := a2.daysLate + 1, lateMinutes := a2.lateMinutes + m }
      else a2
    | none => a2
  match r.ot with
  | some m =>
    if m ≠ 0 then
      { a3 with daysOT := a3.daysOT + 1, otMinutes := a3.otMinutes + m }
    else a3
  | none => a3

/-- The statistics computed by `update_monthly_summary` from the day rows
(rows 3 .. 2+days of the sheet, exactly the pre-materialized day rows). -/
def computeSummary (days : List DayRecord) : SummaryBlock :=
  days.foldl addRow { workDays := 0, totalMinutes := 0, daysLate := 0,
                      lateMinutes := 0, daysOT := 0, otMinutes := 0 }

/-- A user's month sheet as read and written by `update_monthly_summary`:
the day rows and the summary block (stored below them, rows
`days+5 .. days+7` — disjoint from the day rows it scans). -/
structure MonthSheet where
  days : List DayRecord
  summary : SummaryBlock
  deriving DecidableEq, Repr

/-- `update_monthly_summary` (`src/attendance_tracker.py:945-1021`): scan the
day rows, recompute the six statistics, overwrite the summary cells; the
day rows themselves are only read, never written. -/
def updateMonthlySummary (s : MonthSheet) : MonthSheet :=
  { s with summary := computeSummary s.days }

/-- Contents of a file in the corruption-recovery model: a structurally
valid xlsx workbook (carrying its sheet names); a valid zip archive that is
nevertheless not a valid workbook (e.g. an empty zip, or one missing
`workbook.xml`); or arbitrary non-zip bytes. -/
inductive FileContent where
  | workbook : List String → FileContent
  | zipNotWorkbook : String → FileContent
  | garbage : String → FileContent
  deriving DecidableEq, Repr

/-- The errors `load_workbook` can raise in this model: `zipfile.BadZipFile`
on a file that is not a zip archive — the only error the recovery block's
`except` clause names — and the uncaught `KeyError`-class error raised on a
zip archive that is not a structurally valid workbook. -/
inductive PyErr where
  | badZipFile
  | keyError
  deriving DecidableEq, Repr

/-- `load_workbook` on the modelled contents: succeeds on a valid workbook,
raises `BadZipFile` on non-zip bytes, and raises a `KeyError`-class error on
a zip archive that is not a valid workbook. -/
def loadWorkbook : FileContent → Except PyErr Unit
  | .workbook _ => .ok ()
  | .zipNotWorkbook _ => .error .keyError
  | .garbage _ => .error .badZipFile

/-- The file system as a map from paths to contents. -/
def FS : Type := String → Option FileContent

/-- Point update of the file-system map (used for `os.rename` and file
creation). -/
def setFile (fs : FS) (p : String) (c : Option FileContent) : FS :=
  fun q => if q = p then c else fs q

/-- `config.ATTENDANCE_FILE` relative to the data directory. -/
def attendancePath : String := "data/attendance.xlsx"

/-- The quarantine path `attendance_file.replace('.xlsx', '_corrupt_{ts}.xlsx')`
(line 53); since the path ends in `.xlsx`, the replacement is exactly this
concatenation. -/
def corruptPath (ts : String) : String :=
  "data/attendance" ++ "_corrupt_" ++ ts ++ ".xlsx"

/-- The fresh workbook `_create_attendance_file` writes: only the hidden
`Template` sheet, no user sheets (lines 226-268). -/
def freshLedger : FileContent := .workbook ["Template"]

/-- The startup block of `AttendanceTracker.__init__` that opens or recovers
the attendance file (`src/attendance_tracker.py:41-59`): create the file if
absent; otherwise try to load it, and on `BadZipFile` — the only exception
the `except` clause names — rename it to the timestamped quarantine path
and create a fresh workbook in its place.  Any other error from
`load_workbook` is not caught and propagates out of `__init__`, which the
`.error` result records. -/
def attInit (fs : FS) (ts : String) : Except PyErr FS :=
  match fs attendancePath with
  | none => .ok (setFile fs attendancePath (some freshLedger))
  | some c =>
    match loadWorkbook c with
    | .ok _ => .ok fs
    | .error .badZipFile =>
      let renamed := setFile (setFile fs (corruptPath ts) (some c)) attendancePath none
      .ok (setFile renamed attendancePath (some freshLedger))
    | .error e => .error e

/-! ### Helper lemmas -/

/-- Once `First In` is set, no event changes it, nor the `Status` and `Late`
cells derived from the first check-in. -/
theorem recordEventRow_preserve (r : DayRecord) (e : Event) (now t : Nat)
    (h : r.firstIn = some t) :
    (recordEventRow r e now).2.firstIn = some t ∧
    (recordEventRow r e now).2.punct = r.punct ∧
    (recordEventRow r e now).2.lateBy = r.lateBy := by
  cases e <;> simp [recordEventRow, h]
  split <;> simp [h]

/-- Sequence form of `recordEventRow_preserve`. -/
theorem applyRow_preserve (evs : List (Event × Nat)) (r : DayRecord) (t : Nat)
    (h : r.firstIn = some t) :
    (applyRow r evs).firstIn = some t ∧
    (applyRow r evs).punct = r.punct ∧
    (applyRow r evs).lateBy = r.lateBy := by
  induction evs generalizing r with
  | nil => exact ⟨h, rfl, rfl⟩
  | cons p rest ih =>
    obtain ⟨h1, h2, h3⟩ := recordEventRow_preserve r p.1 p.2 t h
    have hr : applyRow r (p :: rest) = applyRow (recordEventRow r p.1 p.2).2 rest := rfl
    obtain ⟨g1, g2, g3⟩ := ih (recordEventRow r p.1 p.2).2 h1
    exact ⟨by rw [hr]; exact g1, by rw [hr, g2, h2], by rw [hr, g3, h3]⟩

/-- The `Total Hours` formula of `record_event`
(`hours = d // 3600; minutes = (d % 3600) // 60`) totals to `d / 60` whole
minutes. -/
theorem totalFormula_eq_div60 (d : Nat) : d / 3600 * 60 + d % 3600 / 60 = d / 60 := by
  omega

/-- The effect of a `CHECK_OUT` on any row whose `First In` cell is set. -/
theorem recordEventRow_checkout (r : DayRecord) (t now : Nat)
    (h : r.firstIn = some t) :
    recordEventRow r .CHECK_OUT now =
      (true, { r with
               lastOut := some now,
               total := some (pyDiffSeconds t now / 60),
               ot := some (if otCutoff < now then (now - otCutoff) / 60 else 0) }) := by
  simp [recordEventRow, h, totalFormula_eq_div60]

/-! ### Claim theorems -/

/-- C1: for every identity and date, `firstCheckIn` is written at most once per
day: the first `CHECK_IN` into an empty row sets it to `now`, and once set,
no later event of that day (in particular no later `CHECK_IN`) overwrites it
or the punctuality (`Status`) and `Late` fields derived from it. -/
theorem firstCheckIn_set_once :
    (∀ (r : DayRecord) (now : Nat),
       (recordEventRow { r with firstIn := none } .CHECK_IN now).2.firstIn = some now) ∧
    (∀ (r : DayRecord) (t : Nat) (evs : List (Event × Nat)),
       (applyRow { r with firstIn := some t } evs).firstIn = some t ∧
       (applyRow { r with firstIn := some t } evs).punct = r.punct ∧
       (applyRow { r with firstIn := some t } evs).lateBy = r.lateBy) := by
  constructor
  · intro r now
    by_cases h : punctCutoff < now <;> simp [recordEventRow, h]
  · intro r t evs
    exact applyRow_preserve evs _ t rfl

/-- C2 counterexample: a backing file that is a valid zip archive but not a
structurally valid workbook (e.g. an empty zip) is a structurally invalid
container in the claim's scope, yet the recovery block catches only
`BadZipFile`, so `load_workbook`'s `KeyError`-class error propagates and
startup raises instead of quarantining and recreating the file. -/
theorem corrupt_zip_crashes_startup :
    attInit (fun _ => some (FileContent.zipNotWorkbook "empty-zip")) "20240101_000000" =
      Except.error PyErr.keyError := by
  rfl

/-- C2 amended: when the attendance file exists but holds arbitrary non-zip
garbage bytes (the `BadZipFile` case, the claim's own example), startup does
not raise: it renames the corrupt file to the timestamped quarantine path
(which is distinct from the original path, and where the garbage bytes
remain on disk), and creates a fresh empty ledger at the original path.
When the file is instead a valid zip archive that is not a valid workbook,
the loader's error is not caught and initialization raises. -/
theorem corrupt_file_quarantined (fs : FS) (g ts : String) :
    (∃ fsR, attInit (setFile fs attendancePath (some (.garbage g))) ts = Except.ok fsR ∧
      fsR (corruptPath ts) = some (.garbage g) ∧
      fsR attendancePath = some freshLedger ∧
      corruptPath ts ≠ attendancePath) ∧
    attInit (setFile fs attendancePath (some (.zipNotWorkbook g))) ts =
      Except.error PyErr.keyError := by
  have hne : corruptPath ts ≠ attendancePath := by
    intro h
    have hl := congrArg String.length h
    simp only [corruptPath, attendancePath, String.length_append] at hl
    have e1 : ("data/attendance" : String).length = 15 := rfl
    have e2 : ("_corrupt_" : String).length = 9 := rfl
    have e3 : (".xlsx" : String).length = 5 := rfl
    have e4 : ("data/attendance.xlsx" : String).length = 20 := rfl
    omega
  refine ⟨⟨setFile (setFile (setFile (setFile fs attendancePath (some (.garbage g)))
      (corruptPath ts) (some (.garbage g))) attendancePath none)
      attendancePath (some freshLedger), ?_, ?_, ?_, hne⟩, ?_⟩
  · simp [attInit, setFile, loadWorkbook]
  · simp [setFile, hne]
  · simp [setFile]
  · simp [attInit, setFile, loadWorkbook]

/-- C3: a `CHECK_OUT` on a day whose row has no `First In` value is refused:
`record_event` returns `False`, the row is left exactly as it was (state
remains EMPTY), and the per-name cooldown entry is not advanced. -/
theorem checkout_without_checkin_rejected (r : DayRecord) (lc : Option Nat) (now : Nat) :
    recordEvent ⟨{ r with firstIn := none }, lc⟩ .CHECK_OUT now =
      (false, ⟨{ r with firstIn := none }, lc⟩) := by
  rfl

/-- C4: a `CHECK_IN` on a row in state OUT (both `First In` and `Last Out`
set) toggles back: `Last Out` and `Total Hours` are cleared (the `OT` cell
as well), while `First In`, `Status` and `Late` keep their original values;
the resulting row has `First In` set and `Last Out` empty, i.e. state IN. -/
theorem checkin_toggle_back (r : DayRecord) (t u now : Nat) :
    recordEventRow { r with firstIn := some t, lastOut := some u } .CHECK_IN now =
      (true, { r with firstIn := some t, lastOut := none, total := none, ot := none }) := by
  rfl

/-- C5 counterexample: a first `CHECK_IN` at 08:15:00 is recorded `ON TIME`
with a `0m` late cell, not `LATE` with `lateBy = 15m` as the claim asserts
for a punctuality cutoff of 08:00:00 — `record_event` hard-codes its cutoff
at 08:30:00 and exposes no configuration. -/
theorem checkin_0815_recorded_on_time :
    recordEventRow emptyDayRecord .CHECK_IN (8 * 3600 + 15 * 60) =
      (true, { emptyDayRecord with
               firstIn := some (8 * 3600 + 15 * 60),
               punct := some Punct.ON_TIME, lateBy := some 0 }) ∧
    Punct.ON_TIME ≠ Punct.LATE := by
  exact ⟨rfl, by decide⟩

/-- C5 amended: a first `CHECK_IN` at time `now` is recorded `ON TIME` with a
`0m` late cell when `now` is at or before the 08:30:00 cutoff hard-coded in
`record_event`, and `LATE` with `lateBy = (now - cutoff)` truncated down to
whole minutes when after it; the 08:00:00 cutoff appears only in the web
LCD layer, which displays a stored 08:15:00 first check-in as LATE but
computes no late amount. -/
theorem punctuality_hardcoded_cutoff :
    (∀ (r : DayRecord) (now : Nat),
       recordEventRow { r with firstIn := none } .CHECK_IN now =
         (true, { r with
                  firstIn := some now,
                  punct := some (if punctCutoff < now then Punct.LATE else Punct.ON_TIME),
                  lateBy := some (if punctCutoff < now then (now - punctCutoff) / 60 else 0) })) ∧
    punctCutoff = 8 * 3600 + 30 * 60 ∧
    lcdShowsLate (8 * 3600 + 15 * 60) = true := by
  refine ⟨fun r now => ?_, rfl, rfl⟩
  by_cases h : punctCutoff < now <;> simp [recordEventRow, h]

/-- C6 counterexample: with `First In = 08:00:30`, a `CHECK_OUT` at 17:00:00
stores `Total Hours = 8h 59m` (539 minutes), while `now - firstCheckIn` is
32370 seconds; the stored total is the elapsed time truncated to whole
minutes, not that difference exactly. -/
theorem totalWorked_not_exact :
    ((recordEventRow { emptyDayRecord with firstIn := some 28830 } .CHECK_OUT 61200).2.total
        = some 539) ∧
    539 * 60 ≠ 61200 - 28830 := by
  exact ⟨rfl, by decide⟩

/-- C6 amended: every `CHECK_OUT` on a row with `First In = t` succeeds,
overwrites `Last Out` with `now`, recomputes
`Total Hours = (now - t)` truncated down to whole minutes, and sets the `OT`
cell to `now - 17:00:00` truncated to whole minutes when `now` is past the
overtime cutoff and to `0m` otherwise; consequently after any sequence of
`CHECK_IN`/`CHECK_OUT` events ending in a `CHECK_OUT` at `now`, the final
`Last Out` and `Total Hours` reflect that last `CHECK_OUT`. -/
theorem checkout_last_out_wins :
    (∀ (r : DayRecord) (t now : Nat),
       recordEventRow { r with firstIn := some t } .CHECK_OUT now =
         (true, { r with
                  firstIn := some t, lastOut := some now,
                  total := some (pyDiffSeconds t now / 60),
                  ot := some (if otCutoff < now then (now - otCutoff) / 60 else 0) })) ∧
    (∀ (r : DayRecord) (t : Nat) (evs : List (Event × Nat)) (now : Nat),
       (applyRow { r with firstIn := some t } (evs ++ [(.CHECK_OUT, now)])).lastOut
           = some now ∧
       (applyRow { r with firstIn := some t } (evs ++ [(.CHECK_OUT, now)])).total =
         some (pyDiffSeconds t now / 60)) := by
  constructor
  · intro r t now
    exact recordEventRow_checkout _ t now rfl
  · intro r t evs now
    have hfold : applyRow { r with firstIn := some t } (evs ++ [(.CHECK_OUT, now)]) =
        (recordEventRow (applyRow { r with firstIn := some t } evs) .CHECK_OUT now).2 := by
      simp [applyRow, List.foldl_append]
    have hfi := (applyRow_preserve evs { r with firstIn := some t } t rfl).1
    rw [hfold, recordEventRow_checkout _ t now hfi]
    exact ⟨rfl, rfl⟩

/-- C7 (code evaluated at the failing input): a pre-materialized day row with
neither `First In` nor `Last Out` set still yields a status entry, and that
entry reports `IN` — not the absence of a status entry (NONE) required by
the claim. -/
theorem empty_row_reported_in :
    getUserStatus [("Ann", emptyDayRecord)] = [("Ann", StatusTag.IN)] ∧
    emptyDayRecord.firstIn = none ∧ emptyDayRecord.lastOut = none := by
  exact ⟨rfl, rfl, rfl⟩

/-- C8: recomputing the monthly summary is an idempotent pure function of the
day records: running it twice equals running it once, and its summary
output depends only on the day rows, not on the previous summary block. -/
theorem monthly_summary_idempotent :
    (∀ s : MonthSheet,
       updateMonthlySummary (updateMonthlySummary s) = updateMonthlySummary s) ∧
    (∀ (days : List DayRecord) (b1 b2 : SummaryBlock),
       updateMonthlySummary ⟨days, b1⟩ = updateMonthlySummary ⟨days, b2⟩) :=
  ⟨fun _ => rfl, fun _ _ _ => rfl⟩

/-- C9: `ACCESS_GRANTED` and `ACCESS_DENIED` match no branch of the row
update, so every field of the day's row is unchanged and the call still
returns `True`; `ACCESS_GRANTED` advances the per-name cooldown entry to
`now`, while `ACCESS_DENIED` leaves it alone and `CHECK_OUT` never advances
it (neither on success nor on refusal). -/
theorem access_events_frame :
    (∀ (s : TrackerState) (now : Nat),
       recordEvent s .ACCESS_GRANTED now = (true, ⟨s.row, some now⟩)) ∧
    (∀ (s : TrackerState) (now : Nat),
       recordEvent s .ACCESS_DENIED now = (true, s)) ∧
    (∀ (s : TrackerState) (now : Nat),
       (recordEvent s .CHECK_OUT now).2.lastCheckin = s.lastCheckin) := by
  refine ⟨fun s now => rfl, fun s now => rfl, fun s now => ?_⟩
  rcases hr : recordEventRow s.row .CHECK_OUT now with ⟨ok, r⟩
  cases ok <;> simp [recordEvent, hr]

/-- C10 counterexample: with a last check-in 299.5 seconds ago (cooldown 300
seconds), `can_checkin` is `False` while `get_cooldown_remaining` already
reports `0` (it truncates the remaining time down to whole seconds), so
`can_checkin = True` is not equivalent to `remaining = 0`. -/
theorem cooldown_zero_but_blocked :
    canCheckin (some 0) 299500000 = false ∧ cooldownRemaining (some 0) 299500000 = 0 := by
  exact ⟨by decide, by decide⟩

/-- C10 amended: a name absent from the cooldown index can always check in
and has 0 remaining cooldown; and whenever `can_checkin` returns `True`,
`get_cooldown_remaining` returns 0.  The converse fails only within the
final partial second of the cooldown, where the remaining time truncates to
0 while `can_checkin` is still `False`. -/
theorem cooldown_consistency :
    (∀ now : Int, canCheckin none now = true ∧ cooldownRemaining none now = 0) ∧
    (∀ (l now : Int), canCheckin (some l) now = true →
       cooldownRemaining (some l) now = 0) := by
  refine ⟨fun now => ⟨rfl, rfl⟩, fun l now h => ?_⟩
  simp [canCheckin] at h
  simp [cooldownRemaining, h]

/-- Witness for `cooldown_consistency` at a concrete input: exactly at the end
of the 300-second cooldown, checking in is allowed and 0 seconds remain. -/
theorem cooldown_consistency_witness :
    canCheckin (some 0) 300000000 = true ∧ cooldownRemaining (some 0) 300000000 = 0 :=
  ⟨by decide, cooldown_consistency.2 0 300000000 (by decide)⟩

end AttendancePi
